import Mathlib

/-!
Verification development for the wamopacker configuration value-expansion
engine (the Value Store, Structure Expander and Expression Evaluator of
`wamopacker/config.py`).

The implementation file `wamopacker/config.py` is not present in the source
tree (only its test suite `tests/test_config.py` and a downstream consumer
`wamopacker/command.py` are), so the engine is modelled from the
specification, faithful to its words, and checked against the behaviour the
test suite pins down.  Strings are modelled as `List Char` (`String.data`)
so that every operation is executable and provable.
-/

deriving instance DecidableEq for Except

/-- Modelled from the spec: the error kinds of §7 (ERROR HANDLING DESIGN) of
the specification.  `malformed` is the spec's `SyntaxError` kind (unbalanced
delimiters, empty placeholder, wrong argument count for a directive). -/
inductive ConfigError where
  | configLoadError
  | undefinedKey (k : String)
  | malformed
  | missingEnvVar (name : String)
  | lookupFileError (file : String)
  | lookupKeyError (file : String) (key : String)
  | unknownDirective (d : String)
  | recursionLimitExceeded
deriving Repr, DecidableEq

/-- Modelled from the spec: a Raw Value is any YAML scalar, ordered sequence,
or mapping (§3 DATA MODEL). -/
inductive Value where
  | vnull
  | vbool (b : Bool)
  | vint (n : Int)
  | vstr (s : String)
  | vseq (items : List Value)
  | vmap (entries : List (String × Value))

/-- Modelled from the spec: the string form of a value substituted for a
plain key reference ("Substitute the value's string form", §4.3).  The spec
only exercises scalars here; composite values get an empty string form, a
choice no claim depends on. -/
def Value.strForm : Value → List Char
  | .vnull => []
  | .vbool b => (if b then "true" else "false").data
  | .vint n => (toString n).data
  | .vstr s => s.data
  | .vseq _ => []
  | .vmap _ => []

/-- Modelled from the spec: the Value Store holds an ordered mapping
`explicit` of all values from file/string config, environment variables,
override list and direct assignment, and a separate immutable built-in
mapping `defaults` (§3 DATA MODEL). -/
structure ValueStore where
  explicit : List (String × Value)
  defaults : List (String × Value)

/-- Modelled from the spec: `contains(key)` reflects `explicit` only — a key
with only a built-in default is not considered present (§3, §4.1). -/
def ValueStore.containsKey (st : ValueStore) (k : String) : Bool :=
  (st.explicit.lookup k).isSome

/-- Modelled from the spec: `delete(key)` removes the key from `explicit`;
no error if absent (§4.1). -/
def ValueStore.erase (st : ValueStore) (k : String) : ValueStore :=
  ⟨st.explicit.filter (fun e => e.1 ≠ k), st.defaults⟩

/-- Modelled from the spec: `set(key, value)`; a `none` value removes the key
from `explicit` (equivalent to delete), otherwise the raw (unexpanded) value
is stored (§4.1). -/
def ValueStore.set (st : ValueStore) (k : String) (v : Option Value) : ValueStore :=
  match v with
  | none => st.erase k
  | some v => ⟨(k, v) :: st.explicit.filter (fun e => e.1 ≠ k), st.defaults⟩

/-- Modelled from the spec: the raw stored value a plain key reference
resolves to — `explicit` takes precedence over `defaults` (§4.1). -/
def ValueStore.rawLookup (st : ValueStore) (k : String) : Option Value :=
  match st.explicit.lookup k with
  | some v => some v
  | none => st.defaults.lookup k

/-- Modelled from the spec: the external collaborators of the evaluator — the
ambient environment (read live by the `env` directive), the filesystem's
lookup-table loader (`none` models a file that cannot be found or parsed),
and the namespace-identifier generator (a pure function models the
per-namespace memoisation: the same namespace always yields the same
identifier within one store's lifetime). -/
structure ExtCtx where
  env : String → Option String
  files : String → Option (List (String × String))
  uuidGen : String → String

/-- The full evaluation context: external collaborators plus the Value
Store. -/
structure EvalCtx where
  ext : ExtCtx
  store : ValueStore

/-- A character the evaluator treats as trimmable whitespace. -/
def isWs (c : Char) : Bool :=
  c = ' ' || c = '\t' || c = '\n' || c = '\r'

/-- Trim leading whitespace. -/
def trimL (s : List Char) : List Char :=
  s.dropWhile isWs

/-- Trim leading and trailing whitespace. -/
def trimC (s : List Char) : List Char :=
  trimL ((trimL s.reverse).reverse)

/-- Split a character list on the pipe character; always returns at least one
(possibly empty) part. -/
def splitPipe : List Char → List (List Char)
  | [] => [[]]
  | c :: cs =>
    if c = '|' then [] :: splitPipe cs
    else
      match splitPipe cs with
      | [] => [[c]]
      | p :: ps => (c :: p) :: ps

/-- Indices of every occurrence of the two-character open token. -/
def openIdxs : List Char → List Nat
  | [] => []
  | [_] => []
  | a :: b :: cs =>
    (if a = '(' ∧ b = '(' then [0] else []) ++ (openIdxs (b :: cs)).map (· + 1)

/-- Index of the first occurrence of the two-character close token. -/
def firstCloseIdx : List Char → Option Nat
  | [] => none
  | [_] => none
  | a :: b :: cs =>
    if a = ')' ∧ b = ')' then some 0
    else (firstCloseIdx (b :: cs)).map (· + 1)

/-- Whether the string contains an open token anywhere. -/
def hasOpenTok (s : List Char) : Bool :=
  !(openIdxs s).isEmpty

/-- Modelled from the spec: locate the first innermost placeholder — the
leftmost occurrence of the open token whose matching close token appears
before any further open token (§4.3 step 1).  Concretely: the first close
token, paired with the last open token lying entirely before it.  An open
token with no close token, or a close token with no preceding open token, is
a syntax error.  `ok none` means no placeholder remains. -/
def findPlaceholder (s : List Char) : Except ConfigError (Option (Nat × Nat)) :=
  match firstCloseIdx s with
  | none => if hasOpenTok s then .error .malformed else .ok none
  | some j =>
    match ((openIdxs s).filter (fun i => i + 2 ≤ j)).getLast? with
    | none => .error .malformed
    | some i => .ok (some (i, j))

/-- Modelled from the spec: extract the content between the delimiters, trim
the whole content, split on the pipe character, and trim each part
individually (§4.3 step 2). -/
def placeholderParts (s : List Char) (i j : Nat) : List (List Char) :=
  (splitPipe (trimC ((s.drop (i + 2)).take (j - (i + 2))))).map trimC

/-- Modelled from the spec: replace the entire placeholder, delimiters
included, with the replacement text (§4.3 step 4). -/
def substitute (s : List Char) (i j : Nat) (r : List Char) : List Char :=
  s.take i ++ r ++ s.drop (j + 2)

/-- Modelled from the spec: first non-empty alternative of a `default`
directive; alternatives are literal text, never key lookups; if all are
empty or the list is empty, a syntax error is signalled (§4.3 table). -/
def pickDefault : List (List Char) → Except ConfigError (List Char)
  | [] => .error .malformed
  | a :: rest => if a.isEmpty then pickDefault rest else .ok a

/-- Modelled from the spec: a plain key reference — look the token up in the
Value Store and substitute the raw stored value's string form (the restart
loop of §4.3 step 4 then re-expands any placeholders it surfaces); an absent
key signals `UndefinedKey` (§4.3 table). -/
def keyRef (ctx : EvalCtx) (k : List Char) : Except ConfigError (List Char) :=
  match ctx.store.rawLookup (String.mk k) with
  | some v => .ok v.strForm
  | none => .error (.undefinedKey (String.mk k))

/-- Modelled from the spec: the directive dispatch table of §4.3.  One
non-empty part is a plain key reference; an empty first part is a syntax
error (empty placeholder, also for forms like a lone pipe); `default`,
`env`, `uuid`, `lookup` and `lookup_optional` behave per their table rows;
any other directive name with more than one part is `UnknownDirective`. -/
def dispatch (ctx : EvalCtx) (parts : List (List Char)) : Except ConfigError (List Char) :=
  match parts with
  | [] => .error .malformed
  | d :: args =>
    if d.isEmpty then .error .malformed
    else if args.isEmpty then keyRef ctx d
    else if d = "default".data then pickDefault args
    else if d = "env".data then
      match args with
      | [name] =>
        if name.isEmpty then .error .malformed
        else
          match ctx.ext.env (String.mk name) with
          | some v => .ok v.data
          | none => .error (.missingEnvVar (String.mk name))
      | [name, dflt] =>
        if name.isEmpty then .error .malformed
        else
          match ctx.ext.env (String.mk name) with
          | some v => .ok v.data
          | none => .ok dflt
      | _ => .error .malformed
    else if d = "uuid".data then
      match args with
      | [ns] =>
        if ns.isEmpty then .error .malformed
        else .ok (ctx.ext.uuidGen (String.mk ns)).data
      | _ => .error .malformed
    else if d = "lookup".data then
      match args with
      | [file, key] =>
        match ctx.ext.files (String.mk file) with
        | none => .error (.lookupFileError (String.mk file))
        | some table =>
          match table.lookup (String.mk key) with
          | some v => .ok v.data
          | none => .error (.lookupKeyError (String.mk file) (String.mk key))
      | _ => .error .malformed
    else if d = "lookup_optional".data then
      match args with
      | [file, kd] =>
        match ctx.ext.files (String.mk file) with
        | none => .ok kd
        | some table =>
          match table.lookup (String.mk kd) with
          | some v => .ok v.data
          | none => .error (.lookupKeyError (String.mk file) (String.mk kd))
      | _ => .error .malformed
    else .error (.unknownDirective (String.mk d))

/-- Modelled from the spec: the iterative innermost-first expansion loop of
§4.3, as the explicit bounded loop §9 calls for.  Each placeholder
replacement consumes one unit of fuel; exhausting the fuel while a
placeholder remains signals `RecursionLimitExceeded` (§5).  When no open
token remains the final string gets a single leading/trailing trim
(§4.3 step 5). -/
def evaluateLoop (ctx : EvalCtx) : Nat → List Char → Except ConfigError (List Char)
  | 0, s =>
    match findPlaceholder s with
    | .error e => .error e
    | .ok none => .ok (trimC s)
    | .ok (some _) => .error .recursionLimitExceeded
  | fuel + 1, s =>
    match findPlaceholder s with
    | .error e => .error e
    | .ok none => .ok (trimC s)
    | .ok (some (i, j)) =>
      match dispatch ctx (placeholderParts s i j) with
      | .error e => .error e
      | .ok r => evaluateLoop ctx fuel (substitute s i j r)

/-- Modelled from the spec: the maximum iteration count guarding against an
expansion that never reaches a fixed point (§5). -/
def maxIterations : Nat := 100

/-- Modelled from the spec: evaluate a raw string against a Value Store,
resolving all embedded placeholders (§4.3). -/
def evaluate (ctx : EvalCtx) (s : List Char) : Except ConfigError (List Char) :=
  evaluateLoop ctx maxIterations s

/-- String-level wrapper around `evaluate`. -/
def evalStr (ext : ExtCtx) (st : ValueStore) (s : String) : Except ConfigError String :=
  (evaluate ⟨ext, st⟩ s.data).map String.mk

/-! Concrete fixtures mirroring the test suite's `config_value_config`:
a config where key foo holds the YAML integer 123, key bar holds the string
456, key empty holds the empty string, a lookup file `lookup.yml` mapping
`abc` to `easy as` and `def` to `123`, and one environment variable. -/

def storeFoo : ValueStore :=
  ⟨[(("foo"), Value.vint 123), (("bar"), Value.vstr ("456")), (("empty"), Value.vstr (""))], []⟩

def envTest : String → Option String :=
  fun n => if n = "TEST_ENV_VAR" then some ("meh") else none

def filesTest : String → Option (List (String × String)) :=
  fun f => if f = "lookup.yml" then some [(("abc"), ("easy as")), (("def"), ("123"))] else none

def extTest : ExtCtx :=
  ⟨envTest, filesTest, fun ns => ns ++ "-id"⟩

def ctxFoo : EvalCtx := ⟨extTest, storeFoo⟩

example : evalStr extTest storeFoo ("((foo))") = .ok ("123") := by decide
example : evalStr extTest storeFoo ("(( foo ))") = .ok ("123") := by decide
example : evalStr extTest storeFoo ("(( foo ))(( bar ))") = .ok ("123456") := by decide
example : evalStr extTest storeFoo ("test  ((foo)) ") = .ok ("test  123") := by decide
example : evalStr extTest storeFoo ("(( default | foo | bar ))") = .ok ("foo") := by decide
example : evalStr extTest storeFoo ("(( default || bar ))") = .ok ("bar") := by decide
example : evalStr extTest storeFoo ("(( default | (( foo )) | bar ))") = .ok ("123") := by decide
example : evalStr extTest storeFoo ("(( default | (( empty )) | bar ))") = .ok ("bar") := by decide
example : evalStr extTest storeFoo ("(( env | TEST_ENV_VAR ))") = .ok ("meh") := by decide
example : evalStr extTest storeFoo ("(( lookup_optional | /no/file.yml | foo ))") = .ok ("foo") := by decide
example : evalStr extTest storeFoo ("(( lookup_optional | /no/file.yml | (( foo )) ))") = .ok ("123") := by decide
example : evalStr extTest storeFoo ("(( lookup | lookup.yml | (( fizz )) ))") = .error (.undefinedKey ("fizz")) := by decide
example : evalStr extTest ⟨[(("fizz"), Value.vstr ("abc"))], []⟩ ("(( lookup | lookup.yml | (( fizz )) ))") = .ok ("easy as") := by decide
example : evalStr extTest storeFoo ("((") = .error .malformed := by decide
example : evalStr extTest storeFoo ("))") = .error .malformed := by decide
example : evalStr extTest storeFoo ("(( undefined ))") = .error (.undefinedKey ("undefined")) := by decide
example : evalStr extTest storeFoo ("(((( foo ))))") = .error (.undefinedKey ("123")) := by decide
example : evalStr extTest storeFoo ("(( | ))") = .error .malformed := by decide
example : evalStr extTest storeFoo ("(( undefined | ))") = .error (.unknownDirective ("undefined")) := by decide
example : evalStr extTest storeFoo ("(( env | ))") = .error .malformed := by decide
example : evalStr extTest storeFoo ("(( env | NO_SUCH_VAR ))") = .error (.missingEnvVar ("NO_SUCH_VAR")) := by decide
example : evalStr extTest storeFoo ("(( uuid | ))") = .error .malformed := by decide
example : evalStr extTest storeFoo ("(( lookup | /no/file.yml ))") = .error .malformed := by decide
example : evalStr extTest storeFoo ("(( lookup | /no/file.yml | test ))") = .error (.lookupFileError ("/no/file.yml")) := by decide
example : evalStr extTest storeFoo ("(( env | TEST_ENV_VAR | dflt ))") = .ok ("meh") := by decide
example : evalStr extTest storeFoo ("(( env | NO_SUCH_VAR | dflt ))") = .ok ("dflt") := by decide

/-! The Structure Expander and the Value Store's `get`. -/

mutual

/-- Modelled from the spec: the Structure Expander (§4.2) — apply the
Expression Evaluator to every string leaf, recurse through sequences and
mappings, and leave other scalars untouched. -/
def expandValue (ctx : EvalCtx) : Value → Except ConfigError Value
  | .vstr s =>
    match evaluate ctx s.data with
    | .error e => .error e
    | .ok cs => .ok (.vstr (String.mk cs))
  | .vseq items =>
    match expandSeq ctx items with
    | .error e => .error e
    | .ok items2 => .ok (.vseq items2)
  | .vmap entries =>
    match expandMap ctx entries with
    | .error e => .error e
    | .ok entries2 => .ok (.vmap entries2)
  | .vnull => .ok .vnull
  | .vbool b => .ok (.vbool b)
  | .vint n => .ok (.vint n)

/-- Element-wise expansion of a sequence, preserving order. -/
def expandSeq (ctx : EvalCtx) : List Value → Except ConfigError (List Value)
  | [] => .ok []
  | v :: rest =>
    match expandValue ctx v with
    | .error e => .error e
    | .ok v2 =>
      match expandSeq ctx rest with
      | .error e => .error e
      | .ok rest2 => .ok (v2 :: rest2)

/-- Value-wise expansion of a mapping, preserving keys. -/
def expandMap (ctx : EvalCtx) : List (String × Value) → Except ConfigError (List (String × Value))
  | [] => .ok []
  | (k, v) :: rest =>
    match expandValue ctx v with
    | .error e => .error e
    | .ok v2 =>
      match expandMap ctx rest with
      | .error e => .error e
      | .ok rest2 => .ok ((k, v2) :: rest2)

end

/-- Modelled from the spec: `get(key)` — if the key is in `explicit`, return
the expansion of its explicit value; else if it is in `defaults`, return the
expansion of the default; else signal `UndefinedKey` (§4.1). -/
def ValueStore.get (st : ValueStore) (ext : ExtCtx) (k : String) : Except ConfigError Value :=
  match st.explicit.lookup k with
  | some v => expandValue ⟨ext, st⟩ v
  | none =>
    match st.defaults.lookup k with
    | some v => expandValue ⟨ext, st⟩ v
    | none => .error (.undefinedKey k)

/-- Modelled from the spec: the outcome of deserialising a YAML configuration
source — the file may be missing, the document may fail to parse, or it
parses to some YAML value (§4.1, §6). -/
inductive YamlResult where
  | missing
  | parseFailure
  | doc (v : Value)

/-- Modelled from the spec: configuration construction from a YAML source —
only a top-level mapping is accepted, its entries becoming the explicit
mapping; a missing file, a parse failure, or any other document shape
(scalar, sequence, empty) fails with `ConfigLoadError` and no Value Store is
produced (§4.1). -/
def buildStore (defaults : List (String × Value)) : YamlResult → Except ConfigError ValueStore
  | .doc (.vmap entries) => .ok ⟨entries, defaults⟩
  | _ => .error .configLoadError

/-! Helper lemmas about association lists. -/

theorem lookup_filter_ne (l : List (String × Value)) (k : String) :
    (l.filter (fun e => e.1 ≠ k)).lookup k = none := by
  induction l with
  | nil => rfl
  | cons a rest ih =>
    rw [List.filter_cons]
    by_cases h : a.1 = k
    · rw [if_neg (by simp [h])]
      exact ih
    · rw [if_pos (by simp [h]), List.lookup_cons, show (k == a.1) = false by simp [Ne.symm h]]
      exact ih

theorem filter_ne_idem (l : List (String × Value)) (k : String) :
    (l.filter (fun e => e.1 ≠ k)).filter (fun e => e.1 ≠ k) = l.filter (fun e => e.1 ≠ k) := by
  induction l with
  | nil => rfl
  | cons a rest ih =>
    by_cases h : a.1 = k
    · simp [List.filter_cons, h, ih]
    · simp [List.filter_cons, h, ih]

theorem filter_ne_of_lookup_none (l : List (String × Value)) (k : String)
    (h : l.lookup k = none) : l.filter (fun e => e.1 ≠ k) = l := by
  induction l with
  | nil => rfl
  | cons a rest ih =>
    by_cases hk : a.1 = k
    · exfalso
      rw [List.lookup_cons, show (k == a.1) = true by simp [hk]] at h
      exact Option.some_ne_none _ h
    · rw [List.lookup_cons, show (k == a.1) = false by simp [Ne.symm hk]] at h
      rw [List.filter_cons, if_pos (by simp [hk]), ih h]

/-- C3: `get(k)` returns the expansion of the explicit value when `k` is in
the explicit mapping, otherwise the expansion of the built-in default when
one exists, otherwise it signals `UndefinedKey`; and a plain key-reference
placeholder naming an absent key signals `UndefinedKey`. -/
theorem C3_get_precedence (ext : ExtCtx) (st : ValueStore) (k : String) :
    (∀ v, st.explicit.lookup k = some v → st.get ext k = expandValue ⟨ext, st⟩ v)
    ∧ (st.explicit.lookup k = none →
        ∀ v, st.defaults.lookup k = some v → st.get ext k = expandValue ⟨ext, st⟩ v)
    ∧ (st.explicit.lookup k = none → st.defaults.lookup k = none →
        st.get ext k = .error (.undefinedKey k))
    ∧ evalStr extTest storeFoo ("(( undefined ))") = .error (.undefinedKey ("undefined")) := by
  refine ⟨?_, ?_, ?_, by decide⟩
  · intro v hv
    unfold ValueStore.get
    rw [hv]
  · intro he v hv
    unfold ValueStore.get
    rw [he, hv]
  · intro he hd
    unfold ValueStore.get
    rw [he, hd]

/-- C3 witness: a store with an explicit `foo`, a default `base`, and no
`zzz` exercises all three hypotheses of the theorem at concrete inputs. -/
theorem C3_get_precedence_witness :
    ValueStore.get ⟨[(("foo"), Value.vint 123)], [(("base"), Value.vstr ("b"))]⟩ extTest ("foo")
      = expandValue ⟨extTest, ⟨[(("foo"), Value.vint 123)], [(("base"), Value.vstr ("b"))]⟩⟩ (Value.vint 123)
    ∧ ValueStore.get ⟨[(("foo"), Value.vint 123)], [(("base"), Value.vstr ("b"))]⟩ extTest ("base")
      = expandValue ⟨extTest, ⟨[(("foo"), Value.vint 123)], [(("base"), Value.vstr ("b"))]⟩⟩ (Value.vstr ("b"))
    ∧ ValueStore.get ⟨[(("foo"), Value.vint 123)], [(("base"), Value.vstr ("b"))]⟩ extTest ("zzz")
      = .error (.undefinedKey ("zzz")) := by
  refine ⟨?_, ?_, ?_⟩
  · exact (C3_get_precedence extTest ⟨[(("foo"), Value.vint 123)], [(("base"), Value.vstr ("b"))]⟩ ("foo")).1 (Value.vint 123) rfl
  · exact (C3_get_precedence extTest ⟨[(("foo"), Value.vint 123)], [(("base"), Value.vstr ("b"))]⟩ ("base")).2.1 rfl (Value.vstr ("b")) rfl
  · exact (C3_get_precedence extTest ⟨[(("foo"), Value.vint 123)], [(("base"), Value.vstr ("b"))]⟩ ("zzz")).2.2.1 rfl rfl

/-- C7: configuration construction succeeds only when the YAML source parses
to a top-level mapping, in which case the store is fully populated from its
entries; a missing file, a parse failure, or any other document shape
(scalar, sequence, empty document) fails with `ConfigLoadError`. -/
theorem C7_load_errors (defaults : List (String × Value)) (y : YamlResult) :
    (∀ st, buildStore defaults y = .ok st →
      ∃ entries, y = .doc (.vmap entries) ∧ st = ⟨entries, defaults⟩)
    ∧ ((∀ entries, y ≠ .doc (.vmap entries)) → buildStore defaults y = .error .configLoadError)
    ∧ buildStore defaults .missing = .error .configLoadError
    ∧ buildStore defaults .parseFailure = .error .configLoadError
    ∧ buildStore defaults (.doc .vnull) = .error .configLoadError
    ∧ buildStore defaults (.doc (.vstr ("string"))) = .error .configLoadError
    ∧ buildStore defaults (.doc (.vseq [Value.vint 1])) = .error .configLoadError := by
  refine ⟨?_, ?_, rfl, rfl, rfl, rfl, rfl⟩
  · intro st hst
    match y with
    | .missing => exact Except.noConfusion hst
    | .parseFailure => exact Except.noConfusion hst
    | .doc .vnull => exact Except.noConfusion hst
    | .doc (.vbool _) => exact Except.noConfusion hst
    | .doc (.vint _) => exact Except.noConfusion hst
    | .doc (.vstr _) => exact Except.noConfusion hst
    | .doc (.vseq _) => exact Except.noConfusion hst
    | .doc (.vmap entries) =>
      injection hst with h2
      exact ⟨entries, rfl, h2.symm⟩
  · intro hne
    match y with
    | .missing => rfl
    | .parseFailure => rfl
    | .doc .vnull => rfl
    | .doc (.vbool _) => rfl
    | .doc (.vint _) => rfl
    | .doc (.vstr _) => rfl
    | .doc (.vseq _) => rfl
    | .doc (.vmap entries) => exact absurd rfl (hne entries)

/-- C7 witness: the second hypothesis-bearing conjunct applied at a scalar
document. -/
theorem C7_load_errors_witness :
    buildStore [] (.doc (.vint 5)) = .error .configLoadError :=
  (C7_load_errors [] (.doc (.vint 5))).2.1 (by intro entries h; injection h with h2; cases h2)

/-- C8: assigning null removes the key from the explicit mapping (equivalent
to delete), the assignment is idempotent and a no-op when the key is already
absent, the removed key is no longer present, and presence reflects the
explicit mapping only — defaults never make a key present. -/
theorem C8_null_assignment (st : ValueStore) (k : String)
    (e d d2 : List (String × Value)) :
    st.set k none = st.erase k
    ∧ (st.set k none).set k none = st.set k none
    ∧ (st.explicit.lookup k = none → st.set k none = st)
    ∧ (st.set k none).containsKey k = false
    ∧ (st.containsKey k = true ↔ ∃ v, st.explicit.lookup k = some v)
    ∧ ValueStore.containsKey ⟨e, d⟩ k = ValueStore.containsKey ⟨e, d2⟩ k
    ∧ ValueStore.containsKey ⟨[], d⟩ k = false := by
  refine ⟨rfl, ?_, ?_, ?_, ?_, rfl, rfl⟩
  · show ValueStore.mk _ _ = ValueStore.mk _ _
    rw [ValueStore.set, ValueStore.erase]
    simp only [ValueStore.set, ValueStore.erase, filter_ne_idem]
  · intro h
    show ValueStore.mk (st.explicit.filter (fun e => e.1 ≠ k)) st.defaults = st
    rw [filter_ne_of_lookup_none st.explicit k h]
  · show ((st.explicit.filter (fun e => e.1 ≠ k)).lookup k).isSome = false
    rw [lookup_filter_ne]
    rfl
  · simp [ValueStore.containsKey, Option.isSome_iff_exists]

/-- C8 witness: removing an absent key from a store that has only a default
for it leaves the store unchanged, by the theorem's third conjunct. -/
theorem C8_null_assignment_witness :
    ValueStore.set ⟨[], [(("td"), Value.vnull)]⟩ ("foo") none = ⟨[], [(("td"), Value.vnull)]⟩ :=
  (C8_null_assignment ⟨[], [(("td"), Value.vnull)]⟩ ("foo") [] [] []).2.2.1 rfl

/-! Equation lemmas and dispatch-shape lemmas for the evaluator. -/

theorem evaluateLoop_zero (ctx : EvalCtx) (s : List Char) :
    evaluateLoop ctx 0 s =
      match findPlaceholder s with
      | .error e => .error e
      | .ok none => .ok (trimC s)
      | .ok (some _) => .error .recursionLimitExceeded := by
  rw [evaluateLoop]

theorem evaluateLoop_succ (ctx : EvalCtx) (fuel : Nat) (s : List Char) :
    evaluateLoop ctx (fuel + 1) s =
      match findPlaceholder s with
      | .error e => .error e
      | .ok none => .ok (trimC s)
      | .ok (some (i, j)) =>
        match dispatch ctx (placeholderParts s i j) with
        | .error e => .error e
        | .ok r => evaluateLoop ctx fuel (substitute s i j r) := by
  rw [evaluateLoop]

theorem dispatch_default_cons (ctx : EvalCtx) (a : List Char) (rest : List (List Char)) :
    dispatch ctx ("default".data :: a :: rest) = pickDefault (a :: rest) := rfl

theorem dispatch_env_one (ctx : EvalCtx) (name : List Char) :
    dispatch ctx ("env".data :: [name]) =
      (if name.isEmpty then .error .malformed
       else
         match ctx.ext.env (String.mk name) with
         | some v => .ok v.data
         | none => .error (.missingEnvVar (String.mk name))) := rfl

theorem dispatch_env_two (ctx : EvalCtx) (name dflt : List Char) :
    dispatch ctx ("env".data :: [name, dflt]) =
      (if name.isEmpty then .error .malformed
       else
         match ctx.ext.env (String.mk name) with
         | some v => .ok v.data
         | none => .ok dflt) := rfl

theorem dispatch_lookup_two (ctx : EvalCtx) (file key : List Char) :
    dispatch ctx ("lookup".data :: [file, key]) =
      (match ctx.ext.files (String.mk file) with
       | none => .error (.lookupFileError (String.mk file))
       | some table =>
         match table.lookup (String.mk key) with
         | some v => .ok v.data
         | none => .error (.lookupKeyError (String.mk file) (String.mk key))) := rfl

theorem dispatch_lookupOpt_two (ctx : EvalCtx) (file kd : List Char) :
    dispatch ctx ("lookup_optional".data :: [file, kd]) =
      (match ctx.ext.files (String.mk file) with
       | none => .ok kd
       | some table =>
         match table.lookup (String.mk kd) with
         | some v => .ok v.data
         | none => .error (.lookupKeyError (String.mk file) (String.mk kd))) := rfl

theorem pickDefault_find (alts : List (List Char)) :
    pickDefault alts =
      match alts.find? (fun a => !a.isEmpty) with
      | some a => .ok a
      | none => .error .malformed := by
  induction alts with
  | nil => rfl
  | cons a rest ih =>
    cases ha : a.isEmpty with
    | true =>
      rw [List.find?_cons_of_neg _ (by simp [ha]), pickDefault, if_pos ha]
      exact ih
    | false =>
      rw [List.find?_cons_of_pos _ (by simp [ha]), pickDefault, if_neg (by simp [ha])]

/-- C1: replacing a placeholder restarts scanning from the beginning of the
modified string, so replacement text is itself expanded innermost-first:
one step of the loop with a successful dispatch re-enters the loop on the
whole substituted string; concretely the nested-default example yields the
inner key's value, and the deeply nested `(((( foo ))))` resolves
`(( foo ))` first and then treats its result `123` as a plain key reference,
signalling `UndefinedKey` as no key `123` exists. -/
theorem C1_restart_scan (ctx : EvalCtx) (fuel i j : Nat) (s r : List Char)
    (h1 : findPlaceholder s = .ok (some (i, j)))
    (h2 : dispatch ctx (placeholderParts s i j) = .ok r) :
    evaluateLoop ctx (fuel + 1) s = evaluateLoop ctx fuel (substitute s i j r)
    ∧ evalStr extTest storeFoo ("(( default | (( foo )) | bar ))") = .ok ("123")
    ∧ evalStr extTest storeFoo ("(((( foo ))))") = .error (.undefinedKey ("123")) := by
  refine ⟨?_, by decide, by decide⟩
  have step : evaluateLoop ctx (fuel + 1) s =
      match dispatch ctx (placeholderParts s i j) with
      | .error e => .error e
      | .ok r2 => evaluateLoop ctx fuel (substitute s i j r2) := by
    rw [evaluateLoop_succ, h1]
  rw [step, h2]

/-- C1 witness: the restart equation applied to `((foo))` at its concrete
placeholder bounds and replacement. -/
theorem C1_restart_scan_witness :
    evaluateLoop ctxFoo (0 + 1) (("((foo))").data) =
      evaluateLoop ctxFoo 0 (substitute (("((foo))").data) 0 5 (("123").data)) :=
  (C1_restart_scan ctxFoo 0 0 5 (("((foo))").data) (("123").data) (by decide) (by decide)).1

/-- C2: a `default` placeholder returns the first alternative that is
non-empty (nested placeholders having been resolved in earlier loop
iterations), taken as literal text and independent of the Value Store; if
every alternative is empty, or the alternative list is empty, an error is
signalled; concretely `(( default | foo | bar ))` yields the literal `foo`
although the store binds a key named `foo`. -/
theorem C2_default_first_nonempty (ext ext2 : ExtCtx) (st st2 : ValueStore)
    (alts : List (List Char)) (h : alts ≠ []) :
    dispatch ⟨ext, st⟩ (("default").data :: alts) = dispatch ⟨ext2, st2⟩ (("default").data :: alts)
    ∧ (∀ a, alts.find? (fun x => !x.isEmpty) = some a →
        dispatch ⟨ext, st⟩ (("default").data :: alts) = .ok a)
    ∧ (alts.find? (fun x => !x.isEmpty) = none →
        dispatch ⟨ext, st⟩ (("default").data :: alts) = .error .malformed)
    ∧ pickDefault [] = .error .malformed
    ∧ evalStr extTest storeFoo ("(( default | foo | bar ))") = .ok ("foo") := by
  match alts, h with
  | a :: rest, _ =>
    refine ⟨?_, ?_, ?_, rfl, by decide⟩
    · rw [dispatch_default_cons, dispatch_default_cons]
    · intro x hx
      rw [dispatch_default_cons, pickDefault_find, hx]
    · intro hx
      rw [dispatch_default_cons, pickDefault_find, hx]

/-- C2 witness: the literal-first-alternative conjunct at the concrete
alternatives `foo`, `bar` over the store that binds `foo`. -/
theorem C2_default_first_nonempty_witness :
    dispatch ⟨extTest, storeFoo⟩ (("default").data :: [("foo").data, ("bar").data]) = .ok (("foo").data) :=
  (C2_default_first_nonempty extTest extTest storeFoo storeFoo [("foo").data, ("bar").data]
    (by decide)).2.1 (("foo").data) (by decide)

/-- C4: an open token with no matching close token, a close token with no
preceding open token, and an empty (trimmed) placeholder or empty directive
part all signal a syntax error rather than producing a partial result. -/
theorem C4_syntax_error_cases (ctx : EvalCtx) (fuel : Nat) (s d : List Char)
    (args : List (List Char)) :
    (firstCloseIdx s = none → hasOpenTok s = true →
       evaluateLoop ctx fuel s = .error .malformed)
    ∧ (∀ j, firstCloseIdx s = some j →
        ((openIdxs s).filter (fun i => i + 2 ≤ j)) = [] →
        evaluateLoop ctx fuel s = .error .malformed)
    ∧ (d.isEmpty = true → dispatch ctx (d :: args) = .error .malformed)
    ∧ evalStr extTest storeFoo ("((") = .error .malformed
    ∧ evalStr extTest storeFoo ("))") = .error .malformed
    ∧ evalStr extTest storeFoo ("(( | ))") = .error .malformed
    ∧ evalStr extTest storeFoo ("((  ))") = .error .malformed := by
  refine ⟨?_, ?_, ?_, by decide, by decide, by decide, by decide⟩
  · intro h1 h2
    have hf : findPlaceholder s = .error .malformed := by
      simp [findPlaceholder, h1, h2]
    cases fuel with
    | zero => rw [evaluateLoop_zero, hf]
    | succ f => rw [evaluateLoop_succ, hf]
  · intro j hj hfilter
    have hf : findPlaceholder s = .error .malformed := by
      simp [findPlaceholder, hj, hfilter]
    cases fuel with
    | zero => rw [evaluateLoop_zero, hf]
    | succ f => rw [evaluateLoop_succ, hf]
  · intro hd
    match d, hd with
    | [], _ => rfl

/-- C4 witness: the three hypothesis-bearing conjuncts at concrete inputs —
an unbalanced open token, a close token with no open token before it, and an
empty directive part. -/
theorem C4_syntax_error_cases_witness :
    evaluateLoop ctxFoo 3 (("(( ").data) = .error .malformed
    ∧ evaluateLoop ctxFoo 3 ((" ))x").data) = .error .malformed
    ∧ dispatch ctxFoo [[], ("x").data] = .error .malformed := by
  refine ⟨?_, ?_, ?_⟩
  · exact (C4_syntax_error_cases ctxFoo 3 (("(( ").data) [] []).1 (by decide) (by decide)
  · exact (C4_syntax_error_cases ctxFoo 3 ((" ))x").data) [] []).2.1 1 (by decide) (by decide)
  · exact (C4_syntax_error_cases ctxFoo 3 [] [] [("x").data]).2.2.1 (by decide)

/-- C5: `lookup` signals `LookupFileError` when its file cannot be loaded,
`LookupKeyError` when the file loads but lacks the key, returns the table's
value otherwise, and any other argument count is a syntax error;
`lookup_optional` returns its third part verbatim when loading fails (never
signalling `LookupFileError`), and otherwise behaves as `lookup` on that
part as the key. -/
theorem C5_lookup_and_optional (ctx : EvalCtx) (file key kd : List Char)
    (args : List (List Char)) :
    (ctx.ext.files (String.mk file) = none →
       dispatch ctx (("lookup").data :: [file, key]) = .error (.lookupFileError (String.mk file)))
    ∧ (∀ table, ctx.ext.files (String.mk file) = some table →
        table.lookup (String.mk key) = none →
        dispatch ctx (("lookup").data :: [file, key]) =
          .error (.lookupKeyError (String.mk file) (String.mk key)))
    ∧ (∀ table v, ctx.ext.files (String.mk file) = some table →
        table.lookup (String.mk key) = some v →
        dispatch ctx (("lookup").data :: [file, key]) = .ok v.data)
    ∧ (args ≠ [] → args.length ≠ 2 →
        dispatch ctx (("lookup").data :: args) = .error .malformed)
    ∧ (ctx.ext.files (String.mk file) = none →
        dispatch ctx (("lookup_optional").data :: [file, kd]) = .ok kd)
    ∧ (∀ table, ctx.ext.files (String.mk file) = some table →
        table.lookup (String.mk kd) = none →
        dispatch ctx (("lookup_optional").data :: [file, kd]) =
          .error (.lookupKeyError (String.mk file) (String.mk kd)))
    ∧ (∀ table v, ctx.ext.files (String.mk file) = some table →
        table.lookup (String.mk kd) = some v →
        dispatch ctx (("lookup_optional").data :: [file, kd]) = .ok v.data)
    ∧ (∀ rest f2, dispatch ctx (("lookup_optional").data :: rest) ≠ .error (.lookupFileError f2))
    ∧ evalStr extTest storeFoo ("(( lookup | /no/file.yml | test ))") = .error (.lookupFileError ("/no/file.yml"))
    ∧ evalStr extTest storeFoo ("(( lookup_optional | /no/file.yml | foo ))") = .ok ("foo") := by
  refine ⟨?_, ?_, ?_, ?_, ?_, ?_, ?_, ?_, by decide, by decide⟩
  · intro hf
    rw [dispatch_lookup_two, hf]
  · intro table hf hk
    rw [dispatch_lookup_two]
    simp [hf, hk]
  · intro table v hf hk
    rw [dispatch_lookup_two]
    simp [hf, hk]
  · intro hne hlen
    match args, hne, hlen with
    | [x], _, _ => rfl
    | [x, y], _, hl => exact absurd rfl hl
    | x :: y :: z :: rest, _, _ => rfl
  · intro hf
    rw [dispatch_lookupOpt_two, hf]
  · intro table hf hk
    rw [dispatch_lookupOpt_two]
    simp [hf, hk]
  · intro table v hf hk
    rw [dispatch_lookupOpt_two]
    simp [hf, hk]
  · intro rest f2
    match rest with
    | [] =>
      rw [show dispatch ctx [("lookup_optional").data] = keyRef ctx (("lookup_optional").data) from rfl]
      rw [keyRef]
      cases ctx.store.rawLookup (String.mk (("lookup_optional").data)) <;> simp
    | [x] =>
      intro hc
      exact ConfigError.noConfusion (Except.error.inj hc)
    | [f3, k3] =>
      rw [dispatch_lookupOpt_two]
      cases hfil : ctx.ext.files (String.mk f3) with
      | none => simp
      | some table =>
        cases hlook : table.lookup (String.mk k3) with
        | none => simp [hlook]
        | some v => simp [hlook]
    | x :: y :: z :: rest2 =>
      intro hc
      exact ConfigError.noConfusion (Except.error.inj hc)

/-- C5 witness: the missing-file conjunct of `lookup`, the wrong-argument
count conjunct, and the fall-back conjunct of `lookup_optional`, at concrete
inputs. -/
theorem C5_lookup_and_optional_witness :
    dispatch ctxFoo (("lookup").data :: [("/no/file.yml").data, ("k").data]) =
      .error (.lookupFileError ("/no/file.yml"))
    ∧ dispatch ctxFoo (("lookup").data :: [("only").data]) = .error .malformed
    ∧ dispatch ctxFoo (("lookup_optional").data :: [("/no/file.yml").data, ("fb").data]) = .ok (("fb").data) := by
  refine ⟨?_, ?_, ?_⟩
  · exact (C5_lookup_and_optional ctxFoo (("/no/file.yml").data) (("k").data) [] []).1 (by decide)
  · exact (C5_lookup_and_optional ctxFoo [] [] [] [("only").data]).2.2.2.1 (by decide) (by decide)
  · exact (C5_lookup_and_optional ctxFoo (("/no/file.yml").data) [] (("fb").data) []).2.2.2.2.1 (by decide)

/-- C6: the final string receives a single leading/trailing trim — a
placeholder-free string evaluates to exactly its trimmed self — while
interior whitespace, including spaces between literal text and a
placeholder's result, is preserved verbatim; placeholder content is trimmed
as a whole and each pipe-separated part individually, as the concrete
variants show. -/
theorem C6_trim_once (ext : ExtCtx) (st : ValueStore) (fuel : Nat) (s : List Char)
    (h1 : firstCloseIdx s = none) (h2 : hasOpenTok s = false) :
    evaluateLoop ⟨ext, st⟩ fuel s = .ok (trimC s)
    ∧ evalStr extTest storeFoo ("test  ((foo)) ") = .ok ("test  123")
    ∧ evalStr extTest storeFoo ("((foo))  test") = .ok ("123  test")
    ∧ evalStr extTest storeFoo ("  test  ") = .ok ("test")
    ∧ evalStr extTest storeFoo (" (( foo )) ") = .ok ("123")
    ∧ evalStr extTest storeFoo ("((foo ))(( bar ))") = .ok ("123456") := by
  refine ⟨?_, by decide, by decide, by decide, by decide, by decide⟩
  have hf : findPlaceholder s = .ok none := by
    simp [findPlaceholder, h1, h2]
  cases fuel with
  | zero => rw [evaluateLoop_zero, hf]
  | succ f => rw [evaluateLoop_succ, hf]

/-- C6 witness: the single-trim conjunct at a concrete placeholder-free
string with leading, interior and trailing whitespace. -/
theorem C6_trim_once_witness :
    evaluateLoop ⟨extTest, storeFoo⟩ 7 ((" a  b ").data) = .ok (trimC ((" a  b ").data)) :=
  (C6_trim_once extTest storeFoo 7 ((" a  b ").data) (by decide) (by decide)).1

theorem evaluateLoop_fuel_mono (ctx : EvalCtx) :
    ∀ fuel s r, evaluateLoop ctx fuel s = .ok r → evaluateLoop ctx (fuel + 1) s = .ok r := by
  intro fuel
  induction fuel with
  | zero =>
    intro s r h
    rw [evaluateLoop_zero] at h
    rw [evaluateLoop_succ]
    cases hf : findPlaceholder s with
    | error e => simp [hf] at h
    | ok o =>
      cases o with
      | none =>
        simp [hf] at h ⊢
        exact h
      | some ij => simp [hf] at h
  | succ f ih =>
    intro s r h
    rw [evaluateLoop_succ] at h
    rw [evaluateLoop_succ]
    cases hf : findPlaceholder s with
    | error e => simp [hf] at h
    | ok o =>
      cases o with
      | none =>
        simp [hf] at h ⊢
        exact h
      | some ij =>
        obtain ⟨i, j⟩ := ij
        simp only [hf] at h ⊢
        cases hd : dispatch ctx (placeholderParts s i j) with
        | error e => simp [hd] at h
        | ok r2 =>
          simp only [hd] at h ⊢
          exact ih _ _ h

def sSelf : List Char := ("((a))").data

def ctxSelf : EvalCtx := ⟨extTest, ⟨[(("a"), Value.vstr ("((a))"))], []⟩⟩

theorem selfref_step (f : Nat) :
    evaluateLoop ctxSelf (f + 1) sSelf = evaluateLoop ctxSelf f sSelf := rfl

/-- C10: on a self-referential key whose expansion never reaches a fixed
point the evaluator exhausts its bounded iteration count and signals
`RecursionLimitExceeded` for every fuel bound (so in particular for the
fixed maximum); success is stable under extra fuel, and an input whose
expansion does reach a fixed point within the bound evaluates normally, as
the concrete nested example shows. -/
theorem C10_recursion_guard :
    (∀ fuel, evaluateLoop ctxSelf fuel sSelf = .error .recursionLimitExceeded)
    ∧ evaluate ctxSelf sSelf = .error .recursionLimitExceeded
    ∧ (∀ ctx fuel s r, evaluateLoop ctx fuel s = .ok r → evaluateLoop ctx (fuel + 1) s = .ok r)
    ∧ evalStr extTest storeFoo ("(( default | (( empty )) | bar ))") = .ok ("bar") := by
  have hstep : ∀ fuel, evaluateLoop ctxSelf fuel sSelf = .error .recursionLimitExceeded := by
    intro fuel
    induction fuel with
    | zero => decide
    | succ f ih =>
      rw [selfref_step]
      exact ih
  exact ⟨hstep, hstep maxIterations, fun ctx fuel s r => evaluateLoop_fuel_mono ctx fuel s r, by decide⟩

/-- C10 witness: the fuel-stability conjunct applied to a concrete
placeholder-free input that evaluates normally. -/
theorem C10_recursion_guard_witness :
    evaluateLoop ctxFoo (1 + 1) (("abc").data) = .ok (("abc").data) :=
  C10_recursion_guard.2.2.1 ctxFoo 1 (("abc").data) (("abc").data) (by decide)

/-- C9: the `env` directive with a non-empty name performs a live lookup of
the environment by exact name — the result depends only on the ambient
environment, never on the Value Store's imported snapshot — returning the
variable's value when set and signalling `MissingEnvVar` when unset; the
three-part form returns its literal default instead of signalling; an empty
name is an error. -/
theorem C9_env_directive (ext ext2 : ExtCtx) (st st2 : ValueStore) (name dflt : List Char)
    (h : name.isEmpty = false) :
    (∀ v, ext.env (String.mk name) = some v →
       dispatch ⟨ext, st⟩ (("env").data :: [name]) = .ok v.data)
    ∧ (ext.env (String.mk name) = none →
       dispatch ⟨ext, st⟩ (("env").data :: [name]) = .error (.missingEnvVar (String.mk name)))
    ∧ (∀ v, ext.env (String.mk name) = some v →
       dispatch ⟨ext, st⟩ (("env").data :: [name, dflt]) = .ok v.data)
    ∧ (ext.env (String.mk name) = none →
       dispatch ⟨ext, st⟩ (("env").data :: [name, dflt]) = .ok dflt)
    ∧ (ext.env = ext2.env →
       dispatch ⟨ext, st⟩ (("env").data :: [name]) = dispatch ⟨ext2, st2⟩ (("env").data :: [name]))
    ∧ dispatch ⟨ext, st⟩ (("env").data :: [([] : List Char)]) = .error .malformed
    ∧ evalStr extTest storeFoo ("(( env | TEST_ENV_VAR ))") = .ok ("meh")
    ∧ evalStr extTest storeFoo ("(( env | NO_SUCH_VAR | dflt ))") = .ok ("dflt") := by
  refine ⟨?_, ?_, ?_, ?_, ?_, rfl, by decide, by decide⟩
  · intro v hv
    rw [dispatch_env_one, if_neg (by simp [h]), hv]
  · intro hv
    rw [dispatch_env_one, if_neg (by simp [h]), hv]
  · intro v hv
    rw [dispatch_env_two, if_neg (by simp [h]), hv]
  · intro hv
    rw [dispatch_env_two, if_neg (by simp [h]), hv]
  · intro henv
    rw [dispatch_env_one, dispatch_env_one, henv]

/-- C9 witness: the set-variable and unset-with-default conjuncts at the
concrete test environment. -/
theorem C9_env_directive_witness :
    dispatch ⟨extTest, storeFoo⟩ (("env").data :: [("TEST_ENV_VAR").data]) = .ok (("meh").data)
    ∧ dispatch ⟨extTest, storeFoo⟩ (("env").data :: [("NO_SUCH_VAR").data, ("dflt").data]) = .ok (("dflt").data) := by
  refine ⟨?_, ?_⟩
  · exact (C9_env_directive extTest extTest storeFoo storeFoo (("TEST_ENV_VAR").data) [] (by decide)).1
      ("meh") (by decide)
  · exact (C9_env_directive extTest extTest storeFoo storeFoo (("NO_SUCH_VAR").data) (("dflt").data) (by decide)).2.2.2.1
      (by decide)
